import Mathlib

/-!
Shallow embedding of two MPD input plugins:

* `src/input/plugins/QobuzTagScanner.cxx` — a yajl-callback-driven field
  extractor that assembles a tag record from a streamed JSON token
  sequence, plus the HTTP response classification in `MakeParser`.
* `src/input/plugins/AlsaInputPlugin.cxx` — URI parsing (`SourceSpec`),
  plugin entry (`Create`), the drain dispatch (`DispatchSockets`) and the
  ALSA error recovery table (`Recover`).

Machine integers that can wrap (the `unsigned map_depth` counter and the
`(unsigned)` cast of the duration value) are modelled as `Nat` with an
explicit `% 2^32`.
-/

namespace Qobuz

/-- 2^32, the modulus of the C++ `unsigned` type. -/
def U32 : Nat := 4294967296

/-- `QobuzTagScanner::ResponseParser::State` (QobuzTagScanner.cxx:29-41). -/
inductive QState where
  | NONE
  | COMPOSER
  | COMPOSER_NAME
  | DURATION
  | TITLE
  | ALBUM
  | ALBUM_TITLE
  | ALBUM_ARTIST
  | ALBUM_ARTIST_NAME
  | PERFORMER
  | PERFORMER_NAME
deriving DecidableEq, Repr

/-- The tag kinds committed by the extractor (`TAG_TITLE`, `TAG_COMPOSER`,
`TAG_ALBUM`, `TAG_ALBUM_ARTIST`, `TAG_PERFORMER`). -/
inductive TagType where
  | TITLE
  | COMPOSER
  | ALBUM
  | ALBUM_ARTIST
  | PERFORMER
deriving DecidableEq, Repr

/-- The `TagBuilder` accumulator: `AddItem` appends to `items` preserving
insertion order; `SetDuration` overwrites `duration` (seconds). -/
structure TagBuilder where
  items : List (TagType × String)
  duration : Option Nat
deriving DecidableEq, Repr

/-- `TagBuilder::AddItem`. -/
def addItem (t : TagBuilder) (k : TagType) (v : String) : TagBuilder :=
  { t with items := t.items ++ [(k, v)] }

/-- `TagBuilder::SetDuration`. -/
def setDuration (t : TagBuilder) (d : Nat) : TagBuilder :=
  { t with duration := some d }

/-- The extractor state: `state`, `map_depth` (a 32-bit unsigned counter)
and the accumulated `tag` (QobuzTagScanner.cxx:41-45). -/
structure RParser where
  state : QState
  map_depth : Nat
  tag : TagBuilder
deriving DecidableEq, Repr

/-- Initial parser state: `state = State::NONE`, `map_depth = 0`, empty tag. -/
def initParser : RParser :=
  { state := QState.NONE, map_depth := 0, tag := { items := [], duration := none } }

/-- The state update of `ResponseParser::Integer`
(QobuzTagScanner.cxx:114-128): in state `DURATION` a positive value is
stored as the duration, cast through `(unsigned)`; there is no
`map_depth` check here. -/
def integerStep (p : RParser) (value : Int) : RParser :=
  match p.state with
  | QState.DURATION =>
      if 0 < value then { p with tag := setDuration p.tag (value.toNat % U32) }
      else p
  | _ => p

/-- `ResponseParser::Integer`: apply the update; every path returns `true`. -/
def handleInteger (p : RParser) (value : Int) : RParser × Bool :=
  (integerStep p value, true)

/-- The state update of `ResponseParser::String`
(QobuzTagScanner.cxx:130-164): each terminal state commits only when
`map_depth` equals its expected depth. -/
def stringStep (p : RParser) (value : String) : RParser :=
  match p.state with
  | QState.TITLE =>
      if p.map_depth = 1 then { p with tag := addItem p.tag TagType.TITLE value }
      else p
  | QState.COMPOSER_NAME =>
      if p.map_depth = 2 then { p with tag := addItem p.tag TagType.COMPOSER value }
      else p
  | QState.ALBUM_TITLE =>
      if p.map_depth = 2 then { p with tag := addItem p.tag TagType.ALBUM value }
      else p
  | QState.ALBUM_ARTIST_NAME =>
      if p.map_depth = 3 then { p with tag := addItem p.tag TagType.ALBUM_ARTIST value }
      else p
  | QState.PERFORMER_NAME =>
      if p.map_depth = 2 then { p with tag := addItem p.tag TagType.PERFORMER value }
      else p
  | _ => p

/-- `ResponseParser::String`: apply the update; every path returns `true`. -/
def handleString (p : RParser) (value : String) : RParser × Bool :=
  (stringStep p value, true)

/-- `ResponseParser::StartMap` (QobuzTagScanner.cxx:166-171): `++map_depth`
on the 32-bit unsigned counter.  Returns `true`. -/
def handleStartMap (p : RParser) : RParser × Bool :=
  ({ p with map_depth := (p.map_depth + 1) % U32 }, true)

/-- The `case 1:` arm of `ResponseParser::MapKey`. -/
def mapKeyAtDepth1 (v : String) : QState :=
  if v = "composer" then QState.COMPOSER
  else if v = "duration" then QState.DURATION
  else if v = "title" then QState.TITLE
  else if v = "album" then QState.ALBUM
  else if v = "performer" then QState.PERFORMER
  else QState.NONE

/-- The `case 2:` arm of `ResponseParser::MapKey`. -/
def mapKeyAtDepth2 (st : QState) (v : String) : QState :=
  match st with
  | QState.NONE | QState.DURATION | QState.TITLE => st
  | QState.COMPOSER | QState.COMPOSER_NAME =>
      if v = "name" then QState.COMPOSER_NAME else QState.COMPOSER
  | QState.ALBUM | QState.ALBUM_TITLE | QState.ALBUM_ARTIST | QState.ALBUM_ARTIST_NAME =>
      if v = "title" then QState.ALBUM_TITLE
      else if v = "artist" then QState.ALBUM_ARTIST
      else QState.ALBUM
  | QState.PERFORMER | QState.PERFORMER_NAME =>
      if v = "name" then QState.PERFORMER_NAME else QState.PERFORMER

/-- The `case 3:` arm of `ResponseParser::MapKey`. -/
def mapKeyAtDepth3 (st : QState) (v : String) : QState :=
  match st with
  | QState.ALBUM_ARTIST | QState.ALBUM_ARTIST_NAME =>
      if v = "name" then QState.ALBUM_ARTIST_NAME else QState.ALBUM_ARTIST
  | _ => st

/-- The state update of `ResponseParser::MapKey`
(QobuzTagScanner.cxx:173-249): the switch on `map_depth` has cases only
for 1, 2 and 3; any other depth leaves the state untouched. -/
def mapKeyStep (p : RParser) (v : String) : RParser :=
  if p.map_depth = 1 then { p with state := mapKeyAtDepth1 v }
  else if p.map_depth = 2 then { p with state := mapKeyAtDepth2 p.state v }
  else if p.map_depth = 3 then { p with state := mapKeyAtDepth3 p.state v }
  else p

/-- `ResponseParser::MapKey`: apply the update; every path returns `true`. -/
def handleMapKey (p : RParser) (v : String) : RParser × Bool :=
  (mapKeyStep p v, true)

/-- The `case 3:` arm of `ResponseParser::EndMap`. -/
def endMapAtDepth3 (st : QState) : QState :=
  match st with
  | QState.ALBUM_TITLE | QState.ALBUM_ARTIST | QState.ALBUM_ARTIST_NAME => QState.ALBUM
  | _ => st

/-- `ResponseParser::EndMap` (QobuzTagScanner.cxx:251-276): reverts
depth-specific state, then `--map_depth` on the 32-bit unsigned counter
(which wraps to `2^32 - 1` when the depth is already 0).  Returns
`true` unconditionally — no nesting check is performed. -/
def endMapStep (p : RParser) : RParser :=
  let st :=
    if p.map_depth = 2 then QState.NONE
    else if p.map_depth = 3 then endMapAtDepth3 p.state
    else p.state
  { p with state := st, map_depth := (p.map_depth + (U32 - 1)) % U32 }

/-- `ResponseParser::EndMap`: apply the update; every path returns `true`. -/
def handleEndMap (p : RParser) : RParser × Bool :=
  (endMapStep p, true)

/-- The yajl event kinds wired to the extractor in `parse_callbacks`
(QobuzTagScanner.cxx:14-26). -/
inductive JEvent where
  | startMap
  | mapKey (k : String)
  | stringVal (s : String)
  | intVal (n : Int)
  | endMap
deriving DecidableEq, Repr

/-- Dispatch one yajl event to the corresponding callback. -/
def processEvent (p : RParser) : JEvent → RParser × Bool
  | JEvent.startMap => handleStartMap p
  | JEvent.mapKey k => handleMapKey p k
  | JEvent.stringVal s => handleString p s
  | JEvent.intVal n => handleInteger p n
  | JEvent.endMap => handleEndMap p

/-- Run the extractor over a token sequence; the Bool is `false` as soon
as some callback rejects (yajl stops parsing on a `false` return). -/
def processEvents : List JEvent → RParser → RParser × Bool
  | [], p => (p, true)
  | e :: rest, p =>
      let r := processEvent p e
      if r.2 then processEvents rest r.1 else r

/-- Substring test on character lists, mirroring `std::string::find`
returning a position (`≠ npos`). -/
def hasSubstr (needle : List Char) : List Char → Bool
  | [] => needle.isEmpty
  | c :: rest => needle.isPrefixOf (c :: rest) || hasSubstr needle rest

/-- Lookup of a header value by exact key, mirroring `headers.find`. -/
def lookupHeader (hs : List (String × String)) (k : String) : Option String :=
  match hs with
  | [] => none
  | (a, b) :: rest => if a = k then some b else lookupHeader rest k

/-- The parser chosen by `QobuzTagScanner::MakeParser`: either the
structured-error parser (`QobuzErrorParser`) or the field extractor
(`ResponseParser`). -/
inductive ParserChoice where
  | errorChoice (status : Nat)
  | tagChoice
deriving DecidableEq, Repr

/-- `QobuzTagScanner::MakeParser` (QobuzTagScanner.cxx:87-98): non-200
status yields the error parser; a 200 response whose content-type is
missing or lacks "/json" throws; otherwise the field extractor is
constructed. -/
def makeParser (status : Nat) (headers : List (String × String)) :
    Except String ParserChoice :=
  if status ≠ 200 then Except.ok (ParserChoice.errorChoice status)
  else
    match lookupHeader headers "content-type" with
    | none => Except.error "Not a JSON response from Qobuz"
    | some v =>
        if hasSubstr "/json".toList v.toList then Except.ok ParserChoice.tagChoice
        else Except.error "Not a JSON response from Qobuz"

/-- What the scanner finally delivers to the caller-supplied handler. -/
inductive FetchOutcome where
  | remoteError (status : Nat)
  | remoteTag (record : TagBuilder)
deriving DecidableEq, Repr

/-- The response pipeline: `MakeParser` classifies the response; a 200
JSON body is driven through the field extractor and `FinishParser`
(QobuzTagScanner.cxx:100-106) delivers the finalized record to the
handler; a non-200 body is handled by the error parser instead. -/
def handleResponse (status : Nat) (headers : List (String × String))
    (body : List JEvent) : Except String FetchOutcome :=
  match makeParser status headers with
  | Except.error e => Except.error e
  | Except.ok (ParserChoice.errorChoice s) => Except.ok (FetchOutcome.remoteError s)
  | Except.ok ParserChoice.tagChoice =>
      Except.ok (FetchOutcome.remoteTag (processEvents body initParser).1.tag)

/-- The yajl token sequence for
`{"title":"T","composer":{"name":"C"},"album":{"title":"A","artist":{"name":"AA"}},"duration":dur}`. -/
def sampleTrackEvents (dur : Int) : List JEvent :=
  [JEvent.startMap,
   JEvent.mapKey "title", JEvent.stringVal "T",
   JEvent.mapKey "composer", JEvent.startMap,
     JEvent.mapKey "name", JEvent.stringVal "C",
   JEvent.endMap,
   JEvent.mapKey "album", JEvent.startMap,
     JEvent.mapKey "title", JEvent.stringVal "A",
     JEvent.mapKey "artist", JEvent.startMap,
       JEvent.mapKey "name", JEvent.stringVal "AA",
     JEvent.endMap,
   JEvent.endMap,
   JEvent.mapKey "duration", JEvent.intVal dur,
   JEvent.endMap]

/-- The yajl token sequence for the body prefix of
`{"duration":{"x": ...`, reaching map depth 2 in state `DURATION`. -/
def durationAtDepth2Events : List JEvent :=
  [JEvent.startMap, JEvent.mapKey "duration", JEvent.startMap, JEvent.mapKey "x"]

end Qobuz

namespace Alsa

/-- `EAGAIN` (the code compares against `-EAGAIN`). -/
def EAGAINc : Int := 11

/-- `Split(uri, '?')` from util/StringSplit: the part before the first
separator, and the part after it (`none` when the separator is absent —
`b.data() == nullptr` in the source). -/
def splitQuery : List Char → List Char × Option (List Char)
  | [] => ([], none)
  | c :: rest =>
      if c = '?' then ([], some rest)
      else
        let r := splitQuery rest
        (c :: r.1, r.2)

/-- ASCII lower-casing, as used by the case-insensitive prefix match. -/
def lowerChar (c : Char) : Char :=
  if 'A' ≤ c ∧ c ≤ 'Z' then Char.ofNat (c.toNat + 32) else c

/-- `StringAfterPrefixIgnoreCase`: `some rest` when `pre` is an
ASCII-case-insensitive prefix of the string, else `none` (a
`nullptr`-data view in the source). -/
def afterPrefixCI : List Char → List Char → Option (List Char)
  | [], s => some s
  | _ :: _, [] => none
  | a :: ps, c :: cs =>
      if lowerChar a = lowerChar c then afterPrefixCI ps cs else none

/-- `some rest` test for `afterPrefixCI`. -/
def ciHasPrefix (pre s : List Char) : Bool :=
  (afterPrefixCI pre s).isSome

/-- `ALSA_URI_PREFIX = "alsa://"`. -/
def alsaUriPrefix : List Char := "alsa://".toList

/-- The `"format="` query key matched by `SourceSpec`. -/
def formatKey : List Char := "format=".toList

/-- The plugin configuration captured by `alsa_input_init`
(AlsaInputPlugin.cxx:427-449): both defaults are always non-null there
(`GetBlockValue` falls back to the builtin defaults). -/
structure AlsaConfig where
  defaultDevice : List Char
  defaultFormat : List Char
deriving DecidableEq, Repr

/-- The builtin defaults `BUILTIN_DEFAULT_DEVICE` / `BUILTIN_DEFAULT_FORMAT`. -/
def builtinConfig : AlsaConfig :=
  { defaultDevice := "default".toList, defaultFormat := "48000:16:2".toList }

/-- The fields of `AlsaInputStream::SourceSpec` that drive validity:
`device_name` and `format_string`, each `none` when the corresponding
`std::string_view` has null data. -/
structure SourceSpec where
  deviceName : Option (List Char)
  formatString : Option (List Char)
deriving DecidableEq, Repr

/-- The `SourceSpec` constructor (AlsaInputPlugin.cxx:133-151): split at
`?`; the device name is the remainder after the case-insensitive scheme
prefix; the format string comes from a `format=` query when a query is
present, else from the configured default; when the scheme matched, an
empty device name is replaced by the configured default device. -/
def sourceSpec (cfg : AlsaConfig) (uri : List Char) : SourceSpec :=
  let ab := splitQuery uri
  let dev0 := afterPrefixCI alsaUriPrefix ab.1
  let fmt0 : Option (List Char) :=
    match ab.2 with
    | some q => afterPrefixCI formatKey q
    | none => some cfg.defaultFormat
  match dev0 with
  | some d =>
      { deviceName := some (if d.isEmpty then cfg.defaultDevice else d),
        formatString := fmt0 }
  | none => { deviceName := none, formatString := fmt0 }

/-- `SourceSpec::IsValidScheme` (AlsaInputPlugin.cxx:152-154). -/
def isValidScheme (s : SourceSpec) : Bool :=
  s.deviceName.isSome

/-- `SourceSpec::IsValid` (AlsaInputPlugin.cxx:155-157). -/
def isValid (s : SourceSpec) : Bool :=
  s.deviceName.isSome && s.formatString.isSome

/-- Outcome of `AlsaInputStream::Create`: `notThisPlugin` is the
`nullptr` return; `streamConstructed` records the spec handed to the
`AlsaInputStream` constructor. -/
inductive CreateResult where
  | notThisPlugin
  | streamConstructed (spec : SourceSpec)
deriving DecidableEq, Repr

/-- `AlsaInputStream::Create` (AlsaInputPlugin.cxx:196-205): returns
`nullptr` when the scheme is invalid; otherwise constructs the stream.
Note the source consults only `IsValidScheme`, never `IsValid`. -/
def create (cfg : AlsaConfig) (uri : List Char) : CreateResult :=
  let s := sourceSpec cfg uri
  if isValidScheme s then CreateResult.streamConstructed s
  else CreateResult.notThisPlugin

/-- Outcome of one `AlsaInputStream::DispatchSockets` drain attempt. -/
inductive DispatchOutcome where
  | pausedOut
  | eagainOut
  | committedOut (nbytes : Nat)
  | abortedOut
  | outOfFuel
deriving DecidableEq, Repr

/-- The `snd_pcm_readi` retry loop of `DispatchSockets`
(AlsaInputPlugin.cxx:233-244): each list entry is one
`(snd_pcm_readi result, Recover result)` pair; a non-negative read
commits `n_frames * frame_size` bytes, `-EAGAIN` returns, a failing
`Recover` aborts the stream, otherwise the read is retried. -/
def readRecoverLoop (frameSize : Nat) : List (Int × Int) → DispatchOutcome
  | [] => DispatchOutcome.outOfFuel
  | (n, recov) :: rest =>
      if 0 ≤ n then DispatchOutcome.committedOut (n.toNat * frameSize)
      else if n = -EAGAINc then DispatchOutcome.eagainOut
      else if recov < 0 then DispatchOutcome.abortedOut
      else readRecoverLoop frameSize rest

/-- `AlsaInputStream::DispatchSockets` (AlsaInputPlugin.cxx:218-245)
after the non-blocking dispatch: `w_frames = w.size() / frame_size`; when
`w_frames == 0` the stream pauses (`Pause()` — `Ready → Paused` plus
socket invalidation, with `PrepareSockets` then clearing the socket
list); otherwise the read loop runs.  `writable` is the byte size of the
contiguous writable region returned by `PrepareWriteBuffer`. -/
def dispatchSockets (frameSize writable : Nat) (reads : List (Int × Int)) :
    DispatchOutcome :=
  if writable / frameSize = 0 then DispatchOutcome.pausedOut
  else readRecoverLoop frameSize reads

/-- The `snd_pcm_state` values switched on by `Recover`. -/
inductive PcmState where
  | stOpen
  | stSetup
  | stXrun
  | stPrepared
  | stRunning
  | stDraining
  | stPaused
  | stSuspended
  | stDisconnected
  | stPrivate1
deriving DecidableEq, Repr

/-- The results the ALSA calls made by `Recover` would return:
`snd_pcm_pause(handle, 0)`, `snd_pcm_resume`, `snd_pcm_prepare`,
`snd_pcm_start`. -/
structure PcmCallResults where
  pauseRes : Int
  resumeRes : Int
  prepareRes : Int
  startRes : Int
deriving DecidableEq, Repr

/-- `AlsaInputStream::Recover` (AlsaInputPlugin.cxx:251-306): the
state-keyed recovery switch.  `err` is the negative error code that
triggered the call; the leading switch on `err` only logs.  PAUSED
unpauses; SUSPENDED resumes, returning 0 on `-EAGAIN` and otherwise
falling through to re-prepare (then restart); OPEN/SETUP/XRUN re-prepare
then restart; DISCONNECTED returns `err` unchanged; PREPARED/RUNNING/
DRAINING return 0; the default case (PRIVATE1) returns `err`. -/
def recover (st : PcmState) (err : Int) (r : PcmCallResults) : Int :=
  match st with
  | PcmState.stPaused => r.pauseRes
  | PcmState.stSuspended =>
      if r.resumeRes = -EAGAINc then 0
      else if r.prepareRes = 0 then r.startRes else r.prepareRes
  | PcmState.stOpen | PcmState.stSetup | PcmState.stXrun =>
      if r.prepareRes = 0 then r.startRes else r.prepareRes
  | PcmState.stDisconnected => err
  | PcmState.stPrepared | PcmState.stRunning | PcmState.stDraining => 0
  | PcmState.stPrivate1 => err

end Alsa

/-! ## Helper lemmas -/

/-- Appending one element changes a list. -/
theorem append_singleton_ne {α : Type} (l : List α) (a : α) : l ++ [a] ≠ l := by
  intro h
  have hlen := congrArg List.length h
  simp at hlen

/-- Every yajl callback of the extractor returns `true`. -/
theorem processEvent_snd_true (p : Qobuz.RParser) (e : Qobuz.JEvent) :
    (Qobuz.processEvent p e).2 = true := by
  cases e <;> rfl

/-- The `snd_pcm_readi` retry loop never produces the pause outcome: the
pause decision is taken before the loop. -/
theorem readRecoverLoop_ne_pausedOut (frameSize : Nat) (l : List (Int × Int)) :
    Alsa.readRecoverLoop frameSize l ≠ Alsa.DispatchOutcome.pausedOut := by
  induction l with
  | nil => simp [Alsa.readRecoverLoop]
  | cons hd tl ih =>
      obtain ⟨n, recov⟩ := hd
      simp only [Alsa.readRecoverLoop]
      split
      · simp
      · split
        · simp
        · split
          · simp
          · exact ih

/-- A case-insensitive prefix of the pre-`?` head of a string is a
case-insensitive prefix of the whole string. -/
theorem ciHasPrefix_head (pre uri : List Char) :
    Alsa.ciHasPrefix pre (Alsa.splitQuery uri).1 = true →
    Alsa.ciHasPrefix pre uri = true := by
  induction uri generalizing pre with
  | nil => exact fun h => h
  | cons c cs ih =>
      intro h
      by_cases hc : c = '?'
      · have hhead : (Alsa.splitQuery (c :: cs)).1 = [] := by
          simp [Alsa.splitQuery, hc]
        rw [hhead] at h
        cases pre with
        | nil => simp [Alsa.ciHasPrefix, Alsa.afterPrefixCI]
        | cons a ps => simp [Alsa.ciHasPrefix, Alsa.afterPrefixCI] at h
      · have hhead : (Alsa.splitQuery (c :: cs)).1 = c :: (Alsa.splitQuery cs).1 := by
          simp [Alsa.splitQuery, hc]
        rw [hhead] at h
        cases pre with
        | nil => simp [Alsa.ciHasPrefix, Alsa.afterPrefixCI]
        | cons a ps =>
            simp only [Alsa.ciHasPrefix, Alsa.afterPrefixCI] at h ⊢
            by_cases hl : Alsa.lowerChar a = Alsa.lowerChar c
            · rw [if_pos hl] at h ⊢
              exact ih ps h
            · rw [if_neg hl] at h
              simp at h

/-! ## Claim theorems -/

/-- C1 counterexample: with a frame size of 4 bytes (for example the
default format `48000:16:2`), a drain attempt that finds a writable
region of 2 bytes — non-empty — still pauses, because the pause test is
`w.size() / frame_size == 0`, not `w.size() == 0`.  This refutes the
claim that the pause transition triggers exactly when the writable
region holds zero bytes. -/
theorem C1_counterexample :
    Alsa.dispatchSockets 4 2 [] = Alsa.DispatchOutcome.pausedOut ∧ (2 : Nat) ≠ 0 := by
  decide

/-- C1 (amended): for every drain attempt performed by
`AlsaInputStream::DispatchSockets`, the stream pauses (transitioning
Ready → Paused and deregistering its sockets) exactly when the writable
region of the ring buffer holds fewer bytes than one frame
(`w.size() / frame_size == 0`); a drain attempt that finds at least one
full frame of writable space never triggers the pause transition. -/
theorem C1_pause_iff_sub_frame (frameSize writable : Nat) (reads : List (Int × Int))
    (h : 0 < frameSize) :
    Alsa.dispatchSockets frameSize writable reads = Alsa.DispatchOutcome.pausedOut ↔
      writable < frameSize := by
  unfold Alsa.dispatchSockets
  by_cases hz : writable / frameSize = 0
  · rw [if_pos hz]
    simp only [true_iff]
    exact (Nat.div_eq_zero_iff h).mp hz
  · rw [if_neg hz]
    constructor
    · intro hcontra
      exact absurd hcontra (readRecoverLoop_ne_pausedOut frameSize reads)
    · intro hlt
      exact absurd ((Nat.div_eq_zero_iff h).mpr hlt) hz

/-- C1 witness: the amended theorem at frame size 4, writable 2. -/
theorem C1_witness :
    Alsa.dispatchSockets 4 2 [] = Alsa.DispatchOutcome.pausedOut ↔ (2 : Nat) < 4 :=
  C1_pause_iff_sub_frame 4 2 [] (by decide)

/-- C2: the `AlsaInputStream::Recover` action is keyed on the current
device state: PAUSED unpauses; SUSPENDED resumes, a transiently busy
resume (`-EAGAIN`) returns 0, any other resume result falls through to
re-prepare then restart; OPEN/SETUP/XRUN re-prepare then restart;
DISCONNECTED returns the original error code unchanged, whatever it is;
PREPARED/RUNNING/DRAINING return 0 without touching the device. -/
theorem C2_recover_table (err : Int) (r : Alsa.PcmCallResults) :
    Alsa.recover Alsa.PcmState.stPaused err r = r.pauseRes ∧
    Alsa.recover Alsa.PcmState.stSuspended err r =
      (if r.resumeRes = -Alsa.EAGAINc then 0
       else if r.prepareRes = 0 then r.startRes else r.prepareRes) ∧
    Alsa.recover Alsa.PcmState.stOpen err r =
      (if r.prepareRes = 0 then r.startRes else r.prepareRes) ∧
    Alsa.recover Alsa.PcmState.stSetup err r =
      (if r.prepareRes = 0 then r.startRes else r.prepareRes) ∧
    Alsa.recover Alsa.PcmState.stXrun err r =
      (if r.prepareRes = 0 then r.startRes else r.prepareRes) ∧
    Alsa.recover Alsa.PcmState.stDisconnected err r = err ∧
    Alsa.recover Alsa.PcmState.stPrepared err r = 0 ∧
    Alsa.recover Alsa.PcmState.stRunning err r = 0 ∧
    Alsa.recover Alsa.PcmState.stDraining err r = 0 :=
  ⟨rfl, rfl, rfl, rfl, rfl, rfl, rfl, rfl, rfl⟩

/-- C3 counterexample: after the token prefix for `{"duration":{"x":`,
the extractor sits at map depth 2 in state `DURATION` with no duration
recorded; feeding the integer scalar 5 there commits 5 as the duration
even though the expected depth of `duration` is 1 — refuting the claim
that every scalar commit requires the exact expected depth. -/
theorem C3_counterexample :
    (Qobuz.processEvents Qobuz.durationAtDepth2Events Qobuz.initParser).1.map_depth = 2 ∧
    (Qobuz.processEvents Qobuz.durationAtDepth2Events Qobuz.initParser).1.state =
      Qobuz.QState.DURATION ∧
    (Qobuz.processEvents Qobuz.durationAtDepth2Events Qobuz.initParser).1.tag.duration =
      none ∧
    (Qobuz.processEvents (Qobuz.durationAtDepth2Events ++ [Qobuz.JEvent.intVal 5])
        Qobuz.initParser).1.tag.duration = some 5 := by
  decide

/-- C3 (amended): a string scalar is committed into the record exactly
when the path state names a terminal string field and the map depth
equals its expected depth (title at 1, composer.name at 2, album.title
at 2, album.artist.name at 3, performer.name at 2); an integer scalar,
however, is committed as the duration whenever the state is `DURATION`
and the value is positive, with no depth guard at all. -/
theorem C3_scalar_commit_guards (p : Qobuz.RParser) (v : String) (n : Int) :
    ((Qobuz.stringStep p v).tag.items ≠ p.tag.items ↔
      ((p.state = Qobuz.QState.TITLE ∧ p.map_depth = 1) ∨
       (p.state = Qobuz.QState.COMPOSER_NAME ∧ p.map_depth = 2) ∨
       (p.state = Qobuz.QState.ALBUM_TITLE ∧ p.map_depth = 2) ∨
       (p.state = Qobuz.QState.ALBUM_ARTIST_NAME ∧ p.map_depth = 3) ∨
       (p.state = Qobuz.QState.PERFORMER_NAME ∧ p.map_depth = 2))) ∧
    ((Qobuz.integerStep p n).tag.duration =
      if p.state = Qobuz.QState.DURATION ∧ 0 < n then some (n.toNat % Qobuz.U32)
      else p.tag.duration) := by
  obtain ⟨st, d, tg⟩ := p
  constructor
  · cases st <;>
      simp only [Qobuz.stringStep, Qobuz.addItem] <;>
      (try (split <;> simp_all [append_singleton_ne])) <;>
      simp
  · by_cases hn : 0 < n <;> cases st <;>
      simp [Qobuz.integerStep, Qobuz.setDuration, hn]

/-- C4: the token sequence for
`{"title":"T","composer":{"name":"C"},"album":{"title":"A","artist":{"name":"AA"}},"duration":187}`
yields exactly the items title=T, composer=C, album=A, album_artist=AA
with duration 187 seconds; with duration -5 the same items are produced
and no duration is recorded. -/
theorem C4_sample_extraction :
    (Qobuz.processEvents (Qobuz.sampleTrackEvents 187) Qobuz.initParser).1.tag.items =
      [(Qobuz.TagType.TITLE, "T"), (Qobuz.TagType.COMPOSER, "C"),
       (Qobuz.TagType.ALBUM, "A"), (Qobuz.TagType.ALBUM_ARTIST, "AA")] ∧
    (Qobuz.processEvents (Qobuz.sampleTrackEvents 187) Qobuz.initParser).1.tag.duration =
      some 187 ∧
    (Qobuz.processEvents (Qobuz.sampleTrackEvents (-5)) Qobuz.initParser).1.tag.items =
      [(Qobuz.TagType.TITLE, "T"), (Qobuz.TagType.COMPOSER, "C"),
       (Qobuz.TagType.ALBUM, "A"), (Qobuz.TagType.ALBUM_ARTIST, "AA")] ∧
    (Qobuz.processEvents (Qobuz.sampleTrackEvents (-5)) Qobuz.initParser).1.tag.duration =
      none := by
  decide

/-- C5 counterexample: a lone `exit_object` event is accepted — every
callback returns `true`, no `MalformedStructureError` is raised — and
the unsigned `map_depth` counter wraps to `2^32 - 1`, refuting the claim
that an excess exit-object makes processing fail. -/
theorem C5_counterexample :
    Qobuz.processEvents [Qobuz.JEvent.endMap] Qobuz.initParser =
      ({ state := Qobuz.QState.NONE, map_depth := 4294967295,
         tag := { items := [], duration := none } }, true) := by
  decide

/-- C5 (amended): the extractor itself performs no nesting check and can
never fail — every callback returns `true` on every token sequence; an
`exit_object` without a matching `enter_object` simply wraps the 32-bit
unsigned `map_depth` counter ( to `2^32 - 1` from 0) and processing
continues; rejection of malformed nesting is left to the upstream JSON
tokenizer, outside the extractor. -/
theorem C5_extractor_never_fails (evs : List Qobuz.JEvent) (p : Qobuz.RParser) :
    (Qobuz.processEvents evs p).2 = true := by
  induction evs generalizing p with
  | nil => rfl
  | cons e rest ih =>
      simp only [Qobuz.processEvents, processEvent_snd_true, if_true]
      exact ih _

/-- C6: `QobuzTagScanner::MakeParser` classifies the response by status:
a non-200 status yields the structured-error parser and the field
extractor is never constructed (the outcome does not depend on the
body); a 200 response with a missing content-type, or one not containing
"/json", raises the malformed-response error; a 200 JSON response is
driven through the field extractor and the finalized record is delivered
to the handler. -/
theorem C6_response_classification (status : Nat) (headers : List (String × String))
    (body : List Qobuz.JEvent) :
    (status ≠ 200 →
      Qobuz.handleResponse status headers body =
        Except.ok (Qobuz.FetchOutcome.remoteError status)) ∧
    (status = 200 → Qobuz.lookupHeader headers "content-type" = none →
      Qobuz.handleResponse status headers body =
        Except.error "Not a JSON response from Qobuz") ∧
    (∀ v, status = 200 → Qobuz.lookupHeader headers "content-type" = some v →
      Qobuz.hasSubstr "/json".toList v.toList = false →
      Qobuz.handleResponse status headers body =
        Except.error "Not a JSON response from Qobuz") ∧
    (∀ v, status = 200 → Qobuz.lookupHeader headers "content-type" = some v →
      Qobuz.hasSubstr "/json".toList v.toList = true →
      Qobuz.handleResponse status headers body =
        Except.ok (Qobuz.FetchOutcome.remoteTag
          (Qobuz.processEvents body Qobuz.initParser).1.tag)) := by
  refine ⟨?_, ?_, ?_, ?_⟩
  · intro h
    simp [Qobuz.handleResponse, Qobuz.makeParser, h]
  · intro h hl
    subst h
    simp [Qobuz.handleResponse, Qobuz.makeParser, hl]
  · intro v h hl hs
    subst h
    have hs2 : Qobuz.hasSubstr ['/', 'j', 's', 'o', 'n'] v.data = false := hs
    simp [Qobuz.handleResponse, Qobuz.makeParser, hl, hs2]
  · intro v h hl hs
    subst h
    have hs2 : Qobuz.hasSubstr ['/', 'j', 's', 'o', 'n'] v.data = true := hs
    simp [Qobuz.handleResponse, Qobuz.makeParser, hl, hs2]

/-- C6 witness: a 404 yields the remote error outcome; a 200 JSON
response yields the extracted (here empty) record; a 200 response with
no content-type header is a malformed-response error. -/
theorem C6_witness :
    Qobuz.handleResponse 404 [] [] = Except.ok (Qobuz.FetchOutcome.remoteError 404) ∧
    Qobuz.handleResponse 200 [("content-type", "application/json")] [] =
      Except.ok (Qobuz.FetchOutcome.remoteTag { items := [], duration := none }) ∧
    Qobuz.handleResponse 200 [] [] = Except.error "Not a JSON response from Qobuz" :=
  ⟨(C6_response_classification 404 [] []).1 (by decide),
   (C6_response_classification 200 [("content-type", "application/json")] []).2.2.2
     "application/json" rfl (by decide) (by decide),
   (C6_response_classification 200 [] []).2.1 rfl rfl⟩

/-- C7: on the scheme-valid URI `alsa://hw:0?rate=44100`, whose query
carries no `format=` key, the spec is scheme-valid but not fully valid —
yet `AlsaInputStream::Create` tests only `IsValidScheme()` and proceeds
to construct the stream (with no format token and hence an undefined
audio format), instead of failing with a configuration error as the
specification requires.  `IsValid()` is defined but never called. -/
theorem C7_missing_format_not_rejected :
    Alsa.isValidScheme
      (Alsa.sourceSpec Alsa.builtinConfig "alsa://hw:0?rate=44100".toList) = true ∧
    Alsa.isValid
      (Alsa.sourceSpec Alsa.builtinConfig "alsa://hw:0?rate=44100".toList) = false ∧
    Alsa.create Alsa.builtinConfig "alsa://hw:0?rate=44100".toList =
      Alsa.CreateResult.streamConstructed
        (Alsa.sourceSpec Alsa.builtinConfig "alsa://hw:0?rate=44100".toList) := by
  decide

/-- C8: every source identifier lacking the case-insensitive `alsa://`
prefix makes `SourceSpec` scheme-invalid and `AlsaInputStream::Create`
return the not-this-plugin result (`nullptr`), touching no device. -/
theorem C8_unknown_scheme_rejected (cfg : Alsa.AlsaConfig) (uri : List Char)
    (h : Alsa.ciHasPrefix Alsa.alsaUriPrefix uri = false) :
    Alsa.isValidScheme (Alsa.sourceSpec cfg uri) = false ∧
    Alsa.create cfg uri = Alsa.CreateResult.notThisPlugin := by
  have hnone : Alsa.afterPrefixCI Alsa.alsaUriPrefix (Alsa.splitQuery uri).1 = none := by
    cases ho : Alsa.afterPrefixCI Alsa.alsaUriPrefix (Alsa.splitQuery uri).1 with
    | none => rfl
    | some d =>
        have : Alsa.ciHasPrefix Alsa.alsaUriPrefix uri = true :=
          ciHasPrefix_head _ _ (by simp [Alsa.ciHasPrefix, ho])
        rw [h] at this
        exact absurd this (by simp)
  constructor
  · simp [Alsa.sourceSpec, Alsa.isValidScheme, hnone]
  · simp [Alsa.create, Alsa.sourceSpec, Alsa.isValidScheme, hnone]

/-- C8 witness: the identifier `http://foo` is rejected as
not-this-plugin. -/
theorem C8_witness :
    Alsa.isValidScheme (Alsa.sourceSpec Alsa.builtinConfig "http://foo".toList) = false ∧
    Alsa.create Alsa.builtinConfig "http://foo".toList = Alsa.CreateResult.notThisPlugin :=
  C8_unknown_scheme_rejected Alsa.builtinConfig "http://foo".toList (by decide)

/-- C9: for a scheme-valid identifier whose device segment after the
prefix is empty, the resolved device token is exactly the configured
default device; and when the `?query` component is absent entirely, the
format token is the configured default format string, substituted before
any format decoding. -/
theorem C9_defaults (cfg : Alsa.AlsaConfig) (uri : List Char) :
    (Alsa.afterPrefixCI Alsa.alsaUriPrefix (Alsa.splitQuery uri).1 = some [] →
      (Alsa.sourceSpec cfg uri).deviceName = some cfg.defaultDevice) ∧
    ((Alsa.splitQuery uri).2 = none →
      (Alsa.sourceSpec cfg uri).formatString = some cfg.defaultFormat) := by
  constructor
  · intro h
    simp [Alsa.sourceSpec, h]
  · intro h
    cases hd : Alsa.afterPrefixCI Alsa.alsaUriPrefix (Alsa.splitQuery uri).1 <;>
      simp [Alsa.sourceSpec, h, hd]

/-- C9 witness: the identifier `alsa://` resolves to the default device
and the default format. -/
theorem C9_witness :
    (Alsa.sourceSpec Alsa.builtinConfig "alsa://".toList).deviceName =
      some Alsa.builtinConfig.defaultDevice ∧
    (Alsa.sourceSpec Alsa.builtinConfig "alsa://".toList).formatString =
      some Alsa.builtinConfig.defaultFormat :=
  ⟨(C9_defaults Alsa.builtinConfig "alsa://".toList).1 (by decide),
   (C9_defaults Alsa.builtinConfig "alsa://".toList).2 (by decide)⟩

/-- C10: a key event arriving at map depth 4 or greater leaves the
extractor completely unchanged — state, depth and record; only keys at
depths 1, 2 and 3 ever change the matching state. -/
theorem C10_deep_keys_inert (p : Qobuz.RParser) (k : String) (h : 4 ≤ p.map_depth) :
    Qobuz.mapKeyStep p k = p := by
  unfold Qobuz.mapKeyStep
  rw [if_neg (by omega), if_neg (by omega), if_neg (by omega)]

/-- C10 witness: a key at depth 4 in state `ALBUM_ARTIST` changes
nothing. -/
theorem C10_witness :
    Qobuz.mapKeyStep
      { state := Qobuz.QState.ALBUM_ARTIST, map_depth := 4,
        tag := { items := [], duration := none } } "name" =
      { state := Qobuz.QState.ALBUM_ARTIST, map_depth := 4,
        tag := { items := [], duration := none } } :=
  C10_deep_keys_inert _ "name" (by decide)
